import Mathlib

/-!
Verification of the xstyled style-resolution engine against its
natural-language specification.  JavaScript numbers are modelled as
rationals, JavaScript objects as association lists (first binding wins on
lookup, later spread overrides earlier), and nullable values as `Option`.
All definitions are shallow embeddings of the TypeScript sources; the few
helpers whose source files are not part of the provided sources are
modelled from the specification and say so in their doc comment.
-/

namespace Xstyled

/-! ## JavaScript number rendering

Rendering of a rational as a JavaScript-style decimal string.  Only
terminating decimals with at most two fractional digits occur in the
code under verification (breakpoint widths and widths minus `0.02`).
-/

/-- Decimal rendering of a nonnegative rational: integers render with no
fractional part, other values render with their fractional part in
hundredths (the only non-integers produced by the embedded code have a
denominator dividing `100`). -/
def ratNonnegToJsString (q : ℚ) : String :=
  if q.den = 1 then toString q.num
  else
    let n := (q.num * 100 / (q.den : ℤ)).toNat
    let ip := n / 100
    let fp := n % 100
    if fp % 10 = 0 then toString ip ++ "." ++ toString (fp / 10)
    else if fp < 10 then toString ip ++ ".0" ++ toString fp
    else toString ip ++ "." ++ toString fp

/-- JavaScript-style decimal rendering of a rational, the sign written in
front of the magnitude (negativity tested on the numerator, which is
equivalent since denominators are positive). -/
def ratToJsString (q : ℚ) : String :=
  if q.num < 0 then "-" ++ ratNonnegToJsString (-q) else ratNonnegToJsString q

/-! ## Unit helpers (`unit.ts`) -/

/-- Modelled from the spec: the `px` unit helper (source file `unit.ts` is
not among the provided sources); a numeric value is rendered and suffixed
with `px` (section 4.4: media query strings are
`(min-width: \x7bwidth\x7dpx)`). -/
def px (q : ℚ) : String := ratToJsString q ++ "px"

/-! ## Breakpoints (`breakpoints.ts`, `src/unnamed/part_001`) -/

/-- A breakpoint table: mapping from breakpoint name to numeric pixel
width, embedded as an association list. -/
abbrev Breakpoints := List (String × ℚ)

/-- The default breakpoint table of the source. -/
def DEFAULT_BREAKPOINTS : Breakpoints :=
  [("xs", 0), ("sm", 576), ("md", 768), ("lg", 992), ("xl", 1200)]

/-- `mediaMinWidth` from the source: wraps a min-width value in a media
query, `null` in gives `null` out. -/
def mediaMinWidth : Option String → Option String
  | some value => some ("@media (min-width: " ++ value ++ ")")
  | none => none

/-- `mediaMaxWidth` from the source. -/
def mediaMaxWidth : Option String → Option String
  | some value => some ("@media (max-width: " ++ value ++ ")")
  | none => none

/-- `getBreakpointMin` from the source: the pixel length of the width
stored at `key`, `null` when that width is `0`. -/
def getBreakpointMin (breakpoints : Breakpoints) (key : String) :
    Option String :=
  match breakpoints.lookup key with
  | some value => if value = 0 then none else some (px value)
  | none => none

/-- `getBreakpointMax` from the source: the pixel length of the width
stored at `key` minus `0.02`, `null` when that width is `0`. -/
def getBreakpointMax (breakpoints : Breakpoints) (key : String) :
    Option String :=
  match breakpoints.lookup key with
  | some breakPoint =>
      if breakPoint = 0 then none else some (px (breakPoint - 2 / 100))
  | none => none

/-! ## Unit Resolver (`toLength`)

The Unit Resolver's source file is not among the provided sources; it is
modelled from the specification, section 4.1. -/

/-- A JavaScript value reaching the Unit Resolver: a number, a string, or
some other opaque value. -/
inductive JsVal
  | num (q : ℚ)
  | str (s : String)
  | other (tag : String)
deriving DecidableEq

/-- Modelled from the spec: the Unit Resolver `toLength` (section 4.1).
A numeric value is multiplied by the fixed default scale (1 unit = 4px)
and suffixed with `px`; zero returns `"0"` with no unit; strings and
unrecognized values pass through unchanged. -/
def toLength : JsVal → JsVal
  | JsVal.num q =>
      if q = 0 then JsVal.str "0" else JsVal.str (ratToJsString (4 * q) ++ "px")
  | JsVal.str s => JsVal.str s
  | JsVal.other tag => JsVal.other tag

/-! ## Theme Accessor and negative tokens

The Theme Accessor's source file is not among the provided sources; it is
modelled from the specification, section 4.2, and checked against the
`handles negative values` test of `src/unnamed/part_000`. -/

/-- A node of the nested theme object: a number, a string, or an object of
named fields. -/
inductive ThemeValue
  | num (q : ℚ)
  | str (s : String)
  | obj (fields : List (String × ThemeValue))

/-- Modelled from the spec: path traversal of the Theme Accessor
(section 4.2): walk the theme object segment by segment; an absent
segment yields nothing. -/
def getPath : ThemeValue → List String → Option ThemeValue
  | v, [] => some v
  | ThemeValue.obj fields, seg :: rest =>
      match fields.lookup seg with
      | some v => getPath v rest
      | none => none
  | ThemeValue.num _, _ :: _ => none
  | ThemeValue.str _, _ :: _ => none

/-- Modelled from the spec: resolution of a space token string
(section 4.2): a token prefixed with `-` performs the lookup on the
unprefixed path under `space` and negates the looked-up number. -/
def resolveSpaceValue (theme : ThemeValue) (raw : String) : Option ℚ :=
  if raw.data.head? = some (Char.ofNat 45) then
    match getPath theme ["space", String.mk raw.data.tail] with
    | some (ThemeValue.num q) => some (-q)
    | _ => none
  else
    match getPath theme ["space", raw] with
    | some (ThemeValue.num q) => some q
    | _ => none

/-- The CSS declaration produced for a `margin` property whose raw value
is a space token string: the resolved number rendered as a pixel length. -/
def resolveMarginDecl (theme : ThemeValue) (raw : String) : Option String :=
  (resolveSpaceValue theme raw).map (fun q => "margin:" ++ px q ++ ";")

/-! ## Style Definition and Compositor

The Compositor's source file (`style.ts` of the system package) is not
among the provided sources, only its caller `backgrounds.ts`; it is
modelled from the specification, sections 2 and 4.3. -/

/-- A property bag: the system properties passed to a styled element for
one render, embedded as an association list from property name to raw
value. -/
abbrev PropertyBag := List (String × String)

/-- Modelled from the spec: a Style Definition (section 3): one or more
property-bag keys acting as aliases for one CSS property, plus a value
transform. -/
structure StyleDefinition where
  propNames : List String
  cssProperty : String
  transform : String → String

/-- Modelled from the spec: resolution of one Style Definition against a
property bag (section 4.3): the first declared alias present in the bag
supplies the raw value; when every alias is absent the definition
contributes nothing. -/
def resolveStyleDefinition (d : StyleDefinition) (bag : PropertyBag) :
    Option (String × String) :=
  match d.propNames.findSome? (fun p => bag.lookup p) with
  | some raw => some (d.cssProperty, d.transform raw)
  | none => none

/-- JavaScript object assignment of one declaration into a ruleset: an
existing binding for the same CSS property is overwritten in place,
otherwise the declaration is appended. -/
def assignDecl (acc : List (String × String)) (kv : String × String) :
    List (String × String) :=
  if (acc.lookup kv.1).isSome then
    acc.map (fun e => if e.1 = kv.1 then (e.1, kv.2) else e)
  else acc ++ [kv]

/-- Modelled from the spec: the Compositor `compose` (sections 2 and 4.3):
an ordered sequence of Style Definitions becomes one resolver that merges
each definition's contribution into a single ruleset in composition
order, later definitions overwriting earlier bindings of the same CSS
property. -/
def compose (defs : List StyleDefinition) (bag : PropertyBag) :
    List (String × String) :=
  defs.foldl
    (fun acc d =>
      match resolveStyleDefinition d bag with
      | some kv => assignDecl acc kv
      | none => acc)
    []

/-! ## Color modes (`colorModes.tsx`) -/

/-- The single fixed persisted-storage key of the source. -/
def STORAGE_KEY : String := "xstyled-color-mode"

/-- The fixed mode class name stem `COLOR_MODE_CLASS_PREFIX` of the
source. -/
def colorModeClassStem : String := "xstyled-color-mode-"

/-- `getColorModeClassName` from the source. -/
def getColorModeClassName (mode : String) : String :=
  colorModeClassStem ++ mode

/-- The fixed custom-property name stem `XSTYLED_COLORS_PREFIX` of the
source. -/
def xstyledColorsStem : String := "xstyled-colors"

/-- `SYSTEM_MODES` from the source. -/
def SYSTEM_MODES : List String := ["light", "dark"]

/-- The theme shape consumed by the color-mode engine.  The source keeps
the mode table under `colors.modes`; here the non-mode color tokens and
the mode table are the two fields `colors` and `modes` (`modes = none`
embeds a theme whose `colors.modes` is absent). -/
structure Theme where
  useCustomProperties : Option Bool
  useColorSchemeMediaQuery : Option Bool
  initialColorModeName : Option String
  defaultColorModeName : Option String
  colors : List (String × String)
  modes : Option (List (String × List (String × String)))

/-- JavaScript object spread of `b` over `a`: bindings of `a` keep their
position, overridden by `b` where keys collide; new keys of `b` are
appended in order. -/
def jsSpread (a b : List (String × String)) : List (String × String) :=
  (a.map fun kv => (kv.1, (b.lookup kv.1).getD kv.2)) ++
    b.filter (fun kv => (a.lookup kv.1).isNone)

/-- `getMediaQuery` from the source. -/
def getMediaQuery (query : String) : String := "@media " ++ query

/-- `getColorModeQuery` from the source. -/
def getColorModeQuery (mode : String) : String :=
  "(prefers-color-scheme: " ++ mode ++ ")"

/-- `hasColorModes` from the source: the theme declares `colors.modes`. -/
def hasColorModes (theme : Theme) : Bool := theme.modes.isSome

/-- `hasCustomPropertiesEnabled` from the source: enabled unless
`useCustomProperties` is exactly `false`. -/
def hasCustomPropertiesEnabled (theme : Theme) : Bool :=
  theme.useCustomProperties ≠ some false

/-- `hasMediaQueryEnabled` from the source: enabled unless
`useColorSchemeMediaQuery` is exactly `false`. -/
def hasMediaQueryEnabled (theme : Theme) : Bool :=
  theme.useColorSchemeMediaQuery ≠ some false

/-- `getInitialColorModeName` from the source. -/
def getInitialColorModeName (theme : Theme) : String :=
  theme.initialColorModeName.getD "default"

/-- `getDefaultColorModeName` from the source. -/
def getDefaultColorModeName (theme : Theme) : String :=
  theme.defaultColorModeName.getD (getInitialColorModeName theme)

/-- Modelled from the spec: `toCustomPropertiesDeclarations` (its source
file `customProperties.ts` is not among the provided sources); one custom
property declaration per color token, the property name formed from the
fixed stem and the token path (section 6). -/
def toCustomPropertiesDeclarations (colors : List (String × String))
    (stem : String) : String :=
  String.join
    (colors.map fun kv => "--" ++ stem ++ "-" ++ kv.1 ++ ":" ++ kv.2 ++ ";")

/-- The per-mode declarations of `createColorStyles` in the source: the
base color tokens spread with the mode's overrides (the source spreads
`modes[mode]` a second time over the already-merged colors, which is kept
literally here). -/
def getModePropertiesDeclarations (theme : Theme)
    (ms : List (String × List (String × String))) (mode : String) : String :=
  toCustomPropertiesDeclarations
    (jsSpread (jsSpread theme.colors ((ms.lookup mode).getD []))
      ((ms.lookup mode).getD []))
    xstyledColorsStem

/-- The media-query block emitted for one system mode by
`createColorStyles`. -/
def systemModeMediaBlock (theme : Theme)
    (ms : List (String × List (String × String))) (mode : String) : String :=
  getMediaQuery (getColorModeQuery mode) ++ "\x7b" ++
    getModePropertiesDeclarations theme ms mode ++ "\x7d"

/-- The class-scoped block emitted for one mode name by
`createColorStyles`. -/
def modeClassBlock (theme : Theme)
    (ms : List (String × List (String × String))) (mode : String) : String :=
  "&." ++ getColorModeClassName mode ++ "\x7b" ++
    getModePropertiesDeclarations theme ms mode ++ "\x7d"

/-- `createColorStyles` from the source: `null` without declared modes;
otherwise the base custom-property declarations, the media-query blocks
for the declared system modes (unless `useColorSchemeMediaQuery` is
exactly `false`), and the class-scoped blocks for the initial mode name
followed by every declared mode, all wrapped under the target selector. -/
def createColorStyles (theme : Theme) (targetSelector : String) :
    Option String :=
  match theme.modes with
  | none => none
  | some ms =>
      let styles := toCustomPropertiesDeclarations theme.colors
        xstyledColorsStem
      let styles :=
        if theme.useColorSchemeMediaQuery ≠ some false then
          SYSTEM_MODES.foldl
            (fun acc mode =>
              if (ms.lookup mode).isSome then
                acc ++ systemModeMediaBlock theme ms mode
              else acc)
            styles
        else styles
      let initialModeName := getInitialColorModeName theme
      let styles :=
        (initialModeName :: ms.map Prod.fst).foldl
          (fun acc mode => acc ++ modeClassBlock theme ms mode) styles
      some (targetSelector ++ "\x7b" ++ styles ++ "\x7d")

/-! ## System-preference tracking (`useSystemMode`) -/

/-- The `change` handler registered by `useSystemMode` for a tracked mode:
a matching event sets the tracked system mode to that mode; a
non-matching event updates the previously tracked value with
`previousMode === mode ? null : mode`. -/
def systemModeChangeHandler (mode : String) (eventMatches : Bool)
    (previousMode : Option String) : Option String :=
  if eventMatches then some mode
  else if previousMode = some mode then none else some mode

/-! ## Color mode state (`useColorModeState`)

The hook is embedded as a transition system.  The state gathers the
persisted storage cell, the React `mode` state and the `manualSetRef`
ref; the system-preference mode and the theme-derived default mode are
inputs.  The class-name effect of the hook touches neither of these
fields and is omitted. -/

/-- The mutable state of `useColorModeState`: storage cell, current mode
and the manual-set ref. -/
structure ColorModeMachine where
  storage : Option String
  mode : Option String
  manualSet : Bool
deriving DecidableEq

/-- The environment of the hook: whether the theme declares color modes,
and the theme's default mode name. -/
structure ColorModeEnv where
  hasModes : Bool
  defaultMode : String

/-- The lazy initial-color-mode effect of the source (runs once on
mount): reads storage, falls back to the system mode and then the
default, and updates the mode when it differs. -/
def initialColorModeEffect (env : ColorModeEnv) (systemMode : Option String)
    (s : ColorModeMachine) : ColorModeMachine :=
  if env.hasModes = false then s
  else
    let initialMode :=
      ((s.storage.orElse fun _ => systemMode).getD env.defaultMode)
    if s.mode = some initialMode then s else { s with mode := some initialMode }

/-- The store-mode-preference effect of the source: after a manual set,
the current mode is persisted, or storage is cleared when the mode is
null. -/
def storeModeEffect (s : ColorModeMachine) : ColorModeMachine :=
  if s.manualSet then
    match s.mode with
    | some m => { s with storage := some m }
    | none => { s with storage := none }
  else s

/-- The sync-system-mode effect of the source: reads storage first and
skips when a persisted value exists; otherwise moves the mode to the
system mode or the default. -/
def syncSystemModeEffect (env : ColorModeEnv) (systemMode : Option String)
    (s : ColorModeMachine) : ColorModeMachine :=
  match s.storage with
  | some _ => s
  | none =>
      let targetMode := systemMode.getD env.defaultMode
      if s.mode = some targetMode then s else { s with mode := some targetMode }

/-- One render pass after mount: the store effect, then the sync effect,
in the order they are declared in the source. -/
def renderPass (env : ColorModeEnv) (systemMode : Option String)
    (s : ColorModeMachine) : ColorModeMachine :=
  syncSystemModeEffect env systemMode (storeModeEffect s)

/-- Render passes repeat while effects change state; two passes reach the
fixed point for every reachable state of this machine. -/
def settle (env : ColorModeEnv) (systemMode : Option String)
    (s : ColorModeMachine) : ColorModeMachine :=
  renderPass env systemMode (renderPass env systemMode s)

/-- The state React initializes on mount: the given storage cell, the
default mode when the theme declares color modes (else null), the
manual-set ref cleared. -/
def mountState (env : ColorModeEnv) (storage₀ : Option String) :
    ColorModeMachine :=
  { storage := storage₀
    mode := if env.hasModes then some env.defaultMode else none
    manualSet := false }

/-- Mounting the hook: the initial state, the once-only lazy effect, then
render passes to the fixed point. -/
def mountColorModeState (env : ColorModeEnv) (systemMode : Option String)
    (storage₀ : Option String) : ColorModeMachine :=
  settle env systemMode (initialColorModeEffect env systemMode
    (mountState env storage₀))

/-- An explicit call of the returned setter: marks the manual-set ref and
replaces the mode, then the effects run. -/
def applySetColorMode (env : ColorModeEnv) (systemMode : Option String)
    (s : ColorModeMachine) (value : Option String) : ColorModeMachine :=
  settle env systemMode { s with mode := value, manualSet := true }

/-- A system-preference change: the machine state is untouched, the
effects re-run against the new system mode. -/
def applySystemModeChange (env : ColorModeEnv) (s : ColorModeMachine)
    (newSystemMode : Option String) : ColorModeMachine :=
  settle env newSystemMode s

/-! ## Misuse errors (`useColorMode`, `createColorModeProvider`) -/

/-- `useColorMode` from the source: reading the color-mode context; a
missing context value throws, a present one is returned. -/
def useColorMode {α : Type} (colorModeState : Option α) : Except String α :=
  match colorModeState with
  | none => Except.error "[useColorMode] requires the ColorModeProvider component"
  | some state => Except.ok state

/-- The theme-context check performed by the `ColorModeProvider` of
`createColorModeProvider`: a missing theme context throws, a present one
is used. -/
def colorModeProviderTheme (theme : Option Theme) : Except String Theme :=
  match theme with
  | none =>
      Except.error "[ColorModeProvider] requires ThemeProvider upper in the tree"
  | some t => Except.ok t

/-! ## Initialization script (`getInitScript`) -/

/-- `getInitScript` from the source: the self-invoking script string,
interpolating the storage key, the target expression and the mode class
stem into the fixed template. -/
def getInitScript (target : String) : String :=
  "(function() \x7b try \x7b\n    var mode = localStorage.getItem(\x27" ++
    STORAGE_KEY ++ "\x27);\n    if (mode) " ++ target ++
    ".classList.add(\x27" ++ colorModeClassStem ++
    "\x27 + mode);\n  \x7d catch (e) \x7b\x7d \x7d)();"

/-- The default target expression of `getInitScript`. -/
def initScriptDefaultTarget : String := "document.body"

/-- Modelled from the spec: the effect of running the emitted script
(section 4.5): storage is read inside a try/catch whose catch does
nothing, so a storage failure leaves the target's class list unchanged; a
present value adds the mode class; an absent value changes nothing. -/
def runInitScript (storageRead : Except Unit (Option String))
    (classes : List String) : List String :=
  match storageRead with
  | Except.error _ => classes
  | Except.ok none => classes
  | Except.ok (some mode) => classes ++ [colorModeClassStem ++ mode]

/-- Concatenation of the strings produced by `f` over a list, in order. -/
def concatMap {α : Type} (f : α → String) : List α → String
  | [] => ""
  | a :: t => f a ++ concatMap f t

/-- The part of the emitted init script before the interpolated target
expression, with the storage key resolved. -/
def scriptBeforeTarget : String :=
  "(function() \x7b try \x7b\n    var mode = localStorage.getItem(\x27xstyled-color-mode\x27);\n    if (mode) "

/-- The part of the emitted init script after the interpolated target
expression, with the mode class stem resolved; it closes the try with a
catch that does nothing and invokes the function. -/
def scriptAfterTarget : String :=
  ".classList.add(\x27xstyled-color-mode-\x27 + mode);\n  \x7d catch (e) \x7b\x7d \x7d)();"

/-! ## Helper lemmas -/

theorem ratToJsString_neg (q : ℚ) (hq : 0 < q) :
    ratToJsString (-q) = "-" ++ ratToJsString q := by
  unfold ratToJsString
  rw [if_pos (by simp [Rat.num_neg]; exact_mod_cast hq),
    if_neg (by simp; exact_mod_cast hq.le), neg_neg]

theorem rat_576_sub_two_hundredths :
    ((576 : ℚ) - 2 / 100) = Rat.mk' 28799 50 (by decide) (by decide) := by
  rw [Rat.mk'_eq_divInt]
  norm_num [Rat.divInt_eq_div]

theorem rat_768_sub_two_hundredths :
    ((768 : ℚ) - 2 / 100) = Rat.mk' 38399 50 (by decide) (by decide) := by
  rw [Rat.mk'_eq_divInt]
  norm_num [Rat.divInt_eq_div]

/-! ## Claims about breakpoints -/

/-- Claim C3: for every breakpoint table and key, the minimum-width media
selector is unconditional (null) exactly when the breakpoint's width is
0; otherwise it is the string `@media (min-width: \x7bwidth\x7dpx)`.  In
particular, with breakpoints `xs = 0` and `sm = 576` (the tables used by
a responsive array `[1, 2]`), `xs` gives the unconditional entry and `sm`
gives `@media (min-width: 576px)`. -/
theorem claim_C3_breakpoint_min_media (breakpoints : Breakpoints)
    (key : String) (w : ℚ) (h : breakpoints.lookup key = some w) :
    (mediaMinWidth (getBreakpointMin breakpoints key) = none ↔ w = 0) ∧
    (w ≠ 0 →
      mediaMinWidth (getBreakpointMin breakpoints key) =
        some ("@media (min-width: " ++ ratToJsString w ++ "px" ++ ")")) ∧
    mediaMinWidth (getBreakpointMin [("xs", 0), ("sm", 576)] "xs") = none ∧
    mediaMinWidth (getBreakpointMin [("xs", 0), ("sm", 576)] "sm") =
      some "@media (min-width: 576px)" := by
  refine ⟨?_, ?_, ?_, ?_⟩
  · by_cases hw : w = 0 <;>
      simp [getBreakpointMin, h, hw, mediaMinWidth, px]
  · intro hw
    simp [getBreakpointMin, h, hw, mediaMinWidth, px, String.append_assoc]
  · simp [getBreakpointMin, List.lookup, mediaMinWidth]
  · simp [getBreakpointMin, List.lookup, mediaMinWidth, px, ratToJsString,
      ratNonnegToJsString]
    rfl

/-- Witness for claim C3 at the concrete table `xs = 0`, `sm = 576` and
key `sm`. -/
theorem claim_C3_breakpoint_min_media_witness :
    ([("xs", 0), ("sm", 576)] : Breakpoints).lookup "sm" = some 576 ∧
    ((mediaMinWidth (getBreakpointMin [("xs", 0), ("sm", 576)] "sm") = none ↔
        (576 : ℚ) = 0) ∧
      ((576 : ℚ) ≠ 0 →
        mediaMinWidth (getBreakpointMin [("xs", 0), ("sm", 576)] "sm") =
          some ("@media (min-width: " ++ ratToJsString 576 ++ "px" ++ ")")) ∧
      mediaMinWidth (getBreakpointMin [("xs", 0), ("sm", 576)] "xs") = none ∧
      mediaMinWidth (getBreakpointMin [("xs", 0), ("sm", 576)] "sm") =
        some "@media (min-width: 576px)") :=
  ⟨by simp [List.lookup],
    claim_C3_breakpoint_min_media [("xs", 0), ("sm", 576)] "sm" 576
      (by simp [List.lookup])⟩

/-- Claim C10: `getBreakpointMax` returns null exactly when the width
stored at the given key is `0`, and otherwise the pixel length of that
same width minus `0.02`.  Concretely, with the default table the maximum
for `sm` is `575.98px` (576 − 0.02, the width stored at `sm` itself) and
not `767.98px` (the next breakpoint's minimum less 0.02): obtaining the
latter requires passing the next breakpoint's key. -/
theorem claim_C10_breakpoint_max_own_key (breakpoints : Breakpoints)
    (key : String) (w : ℚ) (h : breakpoints.lookup key = some w) :
    (getBreakpointMax breakpoints key = none ↔ w = 0) ∧
    (w ≠ 0 → getBreakpointMax breakpoints key = some (px (w - 2 / 100))) ∧
    getBreakpointMax DEFAULT_BREAKPOINTS "sm" = some "575.98px" ∧
    getBreakpointMax DEFAULT_BREAKPOINTS "sm" ≠
      some (px ((768 : ℚ) - 2 / 100)) := by
  have h576 : getBreakpointMax DEFAULT_BREAKPOINTS "sm" = some "575.98px" := by
    simp [getBreakpointMax, DEFAULT_BREAKPOINTS, List.lookup, px,
      ratToJsString, ratNonnegToJsString, rat_576_sub_two_hundredths]
    rfl
  refine ⟨?_, ?_, h576, ?_⟩
  · by_cases hw : w = 0 <;> simp [getBreakpointMax, h, hw]
  · intro hw
    simp [getBreakpointMax, h, hw]
  · rw [h576]
    simp [px, ratToJsString, ratNonnegToJsString, rat_768_sub_two_hundredths]
    decide

/-- Witness for claim C10 at the default table and key `sm`. -/
theorem claim_C10_breakpoint_max_own_key_witness :
    DEFAULT_BREAKPOINTS.lookup "sm" = some 576 ∧
    ((getBreakpointMax DEFAULT_BREAKPOINTS "sm" = none ↔ (576 : ℚ) = 0) ∧
      ((576 : ℚ) ≠ 0 →
        getBreakpointMax DEFAULT_BREAKPOINTS "sm" =
          some (px (576 - 2 / 100))) ∧
      getBreakpointMax DEFAULT_BREAKPOINTS "sm" = some "575.98px" ∧
      getBreakpointMax DEFAULT_BREAKPOINTS "sm" ≠
        some (px ((768 : ℚ) - 2 / 100))) :=
  ⟨by simp [DEFAULT_BREAKPOINTS, List.lookup],
    claim_C10_breakpoint_max_own_key DEFAULT_BREAKPOINTS "sm" 576
      (by simp [DEFAULT_BREAKPOINTS, List.lookup])⟩

/-! ## Claim about the Unit Resolver -/

/-- Claim C5: for every positive `n` (so for every non-zero pair `n`,
`-n`), `toLength` scales by the fixed 1-unit-equals-4px default scale and
appends `px`, rendering `-n` as the negation of the rendering of `n` with
the same magnitude and unit suffix; and `toLength 0` is the bare string
`"0"` with no unit suffix. -/
theorem claim_C5_toLength_sign_preserved (n : ℚ) (h : 0 < n) :
    toLength (JsVal.num n) = JsVal.str (ratToJsString (4 * n) ++ "px") ∧
    toLength (JsVal.num (-n)) =
      JsVal.str ("-" ++ ratToJsString (4 * n) ++ "px") ∧
    toLength (JsVal.num 0) = JsVal.str "0" := by
  have hne : n ≠ 0 := ne_of_gt h
  refine ⟨by simp [toLength, hne], ?_, by simp [toLength]⟩
  have hneg : (4 : ℚ) * -n = -(4 * n) := by ring
  have h4 : (0 : ℚ) < 4 * n := by linarith
  simp [toLength, hne, hneg, ratToJsString_neg (4 * n) h4,
    String.append_assoc]

/-- Witness for claim C5 at `n = 2`. -/
theorem claim_C5_toLength_sign_preserved_witness :
    (0 : ℚ) < 2 ∧
    (toLength (JsVal.num 2) = JsVal.str (ratToJsString (4 * 2) ++ "px") ∧
      toLength (JsVal.num (-2)) =
        JsVal.str ("-" ++ ratToJsString (4 * 2) ++ "px") ∧
      toLength (JsVal.num 0) = JsVal.str "0") :=
  ⟨by norm_num, claim_C5_toLength_sign_preserved 2 (by norm_num)⟩

/-! ## Claim about negative theme tokens -/

/-- Claim C4: for every theme holding a positive numeric token at a space
path, the string value formed of `-` followed by the token name resolves
by looking up the unprefixed path and negating the result; concretely the
theme `space.md = 10` with value `-md` yields the declaration
`margin:-10px;`. -/
theorem claim_C4_negative_space_token (theme : ThemeValue) (name : String)
    (q : ℚ) (_hq : 0 < q)
    (hname : name.data.head? ≠ some (Char.ofNat 45))
    (h : getPath theme ["space", name] = some (ThemeValue.num q)) :
    resolveSpaceValue theme ("-" ++ name) = some (-q) ∧
    resolveSpaceValue theme name = some q ∧
    resolveMarginDecl
      (ThemeValue.obj [("space", ThemeValue.obj [("md", ThemeValue.num 10)])])
      "-md" = some "margin:-10px;" := by
  have hdata : ("-" ++ name).data = Char.ofNat 45 :: name.data := rfl
  refine ⟨?_, ?_, ?_⟩
  · rw [resolveSpaceValue, hdata]
    simp only [List.head?, List.tail]
    rw [if_pos trivial]
    show (match getPath theme ["space", name] with
      | some (ThemeValue.num q) => some (-q)
      | _ => none) = some (-q)
    rw [h]
  · rw [resolveSpaceValue, if_neg hname, h]
  · simp [resolveMarginDecl, resolveSpaceValue, getPath, List.lookup, px,
      ratToJsString, ratNonnegToJsString]
    rfl

/-- Witness for claim C4 at the theme `space.md = 10` and token name
`md`. -/
theorem claim_C4_negative_space_token_witness :
    (0 : ℚ) < 10 ∧
    ("md".data.head? ≠ some (Char.ofNat 45)) ∧
    getPath
        (ThemeValue.obj [("space", ThemeValue.obj [("md", ThemeValue.num 10)])])
        ["space", "md"] = some (ThemeValue.num 10) ∧
    (resolveSpaceValue
        (ThemeValue.obj [("space", ThemeValue.obj [("md", ThemeValue.num 10)])])
        ("-" ++ "md") = some (-10) ∧
      resolveSpaceValue
        (ThemeValue.obj [("space", ThemeValue.obj [("md", ThemeValue.num 10)])])
        "md" = some 10 ∧
      resolveMarginDecl
        (ThemeValue.obj [("space", ThemeValue.obj [("md", ThemeValue.num 10)])])
        "-md" = some "margin:-10px;") :=
  ⟨by norm_num, by decide, by simp [getPath, List.lookup],
    claim_C4_negative_space_token
      (ThemeValue.obj [("space", ThemeValue.obj [("md", ThemeValue.num 10)])])
      "md" 10 (by norm_num) (by decide) (by simp [getPath, List.lookup])⟩

/-! ## Claim about the system-preference change handler -/

/-- Counterexample to claim C9: a `matches: false` change event for the
tracked mode `dark` while `light` was previously tracked does not reset
the tracked system mode to null — it sets it to `dark`. -/
theorem claim_C9_counterexample_mismatch_not_null :
    systemModeChangeHandler "dark" false (some "light") = some "dark" ∧
    systemModeChangeHandler "dark" false (some "light") ≠ none := by
  constructor <;> decide

/-- Claim C9 as amended: on a `matches: false` change event for mode `m`,
the tracked system mode is reset to null only when the previously tracked
value equals `m`; for every other previous value (a different mode or
null) it is set to `m`. -/
theorem claim_C9_amended_mismatch_handler (mode : String)
    (previousMode : Option String) :
    systemModeChangeHandler mode false previousMode =
      if previousMode = some mode then none else some mode := by
  simp [systemModeChangeHandler]

/-! ## Claim about misuse errors -/

/-- Claim C7: reading the color mode outside a `ColorModeProvider` scope
throws, rendering `ColorModeProvider` without a theme context throws, and
a present context value passes through untouched.  Every data-level
resolution function of this development is total and returns an `Option`
on absence (`getBreakpointMin`, `resolveSpaceValue`, `compose`,
`createColorStyles`), so these two misuse checks are the only fatal
failures. -/
theorem claim_C7_misuse_errors :
    (∀ (α : Type) (a : α), useColorMode (some a) = Except.ok a) ∧
    (∀ (α : Type),
      useColorMode (none : Option α) =
        Except.error "[useColorMode] requires the ColorModeProvider component") ∧
    (∀ t : Theme, colorModeProviderTheme (some t) = Except.ok t) ∧
    colorModeProviderTheme none =
      Except.error "[ColorModeProvider] requires ThemeProvider upper in the tree" := by
  refine ⟨fun α a => rfl, fun α => rfl, fun t => rfl, rfl⟩

/-! ## Claim about the initialization script -/

/-- Claim C8: `getInitScript` returns the self-invoking script string
reading the single fixed storage key `xstyled-color-mode` and, when a
value is present, adding the class `xstyled-color-mode-` + mode to the
configured target; the whole body sits in a try/catch whose catch does
nothing, so a storage failure leaves the class list unchanged. -/
theorem claim_C8_init_script_shape :
    getInitScript initScriptDefaultTarget =
      "(function() \x7b try \x7b\n    var mode = localStorage.getItem(\x27xstyled-color-mode\x27);\n    if (mode) document.body.classList.add(\x27xstyled-color-mode-\x27 + mode);\n  \x7d catch (e) \x7b\x7d \x7d)();" ∧
    (∀ target,
      getInitScript target =
        scriptBeforeTarget ++ (target ++ scriptAfterTarget)) ∧
    (∀ classes, runInitScript (Except.error ()) classes = classes) ∧
    (∀ classes, runInitScript (Except.ok none) classes = classes) ∧
    (∀ mode classes,
      runInitScript (Except.ok (some mode)) classes =
        classes ++ [getColorModeClassName mode]) := by
  refine ⟨rfl, ?_, fun classes => rfl, fun classes => rfl,
    fun mode classes => rfl⟩
  intro target
  show "(function() \x7b try \x7b\n    var mode = localStorage.getItem(\x27" ++
      STORAGE_KEY ++ "\x27);\n    if (mode) " ++ target ++
      ".classList.add(\x27" ++ colorModeClassStem ++
      "\x27 + mode);\n  \x7d catch (e) \x7b\x7d \x7d)();" =
    scriptBeforeTarget ++ (target ++ scriptAfterTarget)
  rw [STORAGE_KEY, colorModeClassStem, scriptBeforeTarget, scriptAfterTarget]
  simp only [String.append_assoc]
  rfl

/-! ## Claim about the Compositor's merge policy -/

theorem resolveStyleDefinition_lookup_eq (d : StyleDefinition)
    (bag bag' : PropertyBag) (h : ∀ k, bag.lookup k = bag'.lookup k) :
    resolveStyleDefinition d bag = resolveStyleDefinition d bag' := by
  unfold resolveStyleDefinition
  rw [show (fun p => bag.lookup p) = fun p => bag'.lookup p from funext h]

theorem compose_lookup_eq (defs : List StyleDefinition)
    (bag bag' : PropertyBag) (h : ∀ k, bag.lookup k = bag'.lookup k) :
    compose defs bag = compose defs bag' := by
  unfold compose
  congr 1
  funext acc d
  rw [resolveStyleDefinition_lookup_eq d bag bag' h]

/-- Claim C2: when two Style Definitions in `compose` target the same
final CSS property, the later one in composition order determines the
final value for that property, for every property bag that resolves the
later definition; and the result does not depend on the ordering of the
property-bag keys — any bag with the same key lookups produces the
identical ruleset. -/
theorem claim_C2_compose_last_definition_wins (d₁ d₂ : StyleDefinition)
    (bag : PropertyBag) (v : String)
    (hsame : d₁.cssProperty = d₂.cssProperty)
    (h₂ : resolveStyleDefinition d₂ bag = some (d₂.cssProperty, v)) :
    (compose [d₁, d₂] bag).lookup d₂.cssProperty = some v ∧
    ∀ bag' : PropertyBag, (∀ k, bag.lookup k = bag'.lookup k) →
      compose [d₁, d₂] bag' = compose [d₁, d₂] bag := by
  refine ⟨?_, fun bag' h => (compose_lookup_eq [d₁, d₂] bag bag' h).symm⟩
  unfold compose
  simp only [List.foldl]
  rcases hr : resolveStyleDefinition d₁ bag with _ | kv
  · rw [h₂]
    simp [assignDecl, List.lookup]
  · have hkv : kv.1 = d₂.cssProperty := by
      unfold resolveStyleDefinition at hr
      rcases hfs : d₁.propNames.findSome? (fun p => bag.lookup p) with _ | raw <;>
        rw [hfs] at hr
      · exact absurd hr (by simp)
      · rw [← hsame]
        exact congrArg Prod.fst (Option.some.inj hr).symm
    rw [h₂]
    simp [assignDecl, hkv, List.lookup]

/-- Witness for claim C2: two definitions both targeting
`background-color`, the later resolving to `blue` from the bag. -/
theorem claim_C2_compose_last_definition_wins_witness :
    (StyleDefinition.mk ["background"] "background-color" id).cssProperty =
      (StyleDefinition.mk ["bg"] "background-color" id).cssProperty ∧
    resolveStyleDefinition (StyleDefinition.mk ["bg"] "background-color" id)
        [("background", "red"), ("bg", "blue")] =
      some ((StyleDefinition.mk ["bg"] "background-color" id).cssProperty,
        "blue") ∧
    ((compose
          [StyleDefinition.mk ["background"] "background-color" id,
            StyleDefinition.mk ["bg"] "background-color" id]
          [("background", "red"), ("bg", "blue")]).lookup
        (StyleDefinition.mk ["bg"] "background-color" id).cssProperty =
      some "blue" ∧
      ∀ bag' : PropertyBag,
        (∀ k,
          ([("background", "red"), ("bg", "blue")] :
              PropertyBag).lookup k = bag'.lookup k) →
        compose
            [StyleDefinition.mk ["background"] "background-color" id,
              StyleDefinition.mk ["bg"] "background-color" id] bag' =
          compose
            [StyleDefinition.mk ["background"] "background-color" id,
              StyleDefinition.mk ["bg"] "background-color" id]
            [("background", "red"), ("bg", "blue")]) :=
  ⟨rfl, by simp [resolveStyleDefinition, List.findSome?, List.lookup],
    claim_C2_compose_last_definition_wins
      (StyleDefinition.mk ["background"] "background-color" id)
      (StyleDefinition.mk ["bg"] "background-color" id)
      [("background", "red"), ("bg", "blue")] "blue" rfl
      (by simp [resolveStyleDefinition, List.findSome?, List.lookup])⟩

/-! ## Claim about `createColorStyles` -/

theorem foldl_append_concatMap {α : Type} (f : α → String) (l : List α)
    (init : String) :
    l.foldl (fun acc a => acc ++ f a) init = init ++ concatMap f l := by
  induction l generalizing init with
  | nil => simp [concatMap]
  | cons a t ih =>
      simp only [List.foldl, concatMap]
      rw [ih, String.append_assoc]

theorem foldl_append_filter_concatMap {α : Type} (p : α → Bool)
    (f : α → String) (l : List α) (init : String) :
    l.foldl (fun acc a => if p a then acc ++ f a else acc) init =
      init ++ concatMap f (l.filter p) := by
  induction l generalizing init with
  | nil => simp [concatMap]
  | cons a t ih =>
      by_cases hp : p a <;>
        simp only [List.foldl, List.filter, hp, if_true, if_false,
          Bool.false_eq_true, ite_false, ite_true, concatMap] <;>
        rw [ih]
      rw [String.append_assoc]

/-- Claim C6: for a theme declaring `colors.modes`, `createColorStyles`
emits, under the target selector and in order: the base custom-property
declarations for every color token; then, unless
`useColorSchemeMediaQuery` is exactly false, one
`@media (prefers-color-scheme: m)` block per declared system mode
(`light` then `dark`); then one class-scoped
`&.xstyled-color-mode-\x7bm\x7d` block for the initial mode name followed
by every declared mode.  Without `colors.modes` it returns null. -/
theorem claim_C6_createColorStyles_structure (theme : Theme) (sel : String) :
    (theme.modes = none → createColorStyles theme sel = none) ∧
    (∀ ms, theme.modes = some ms →
      createColorStyles theme sel =
        some (sel ++ "\x7b" ++
          (toCustomPropertiesDeclarations theme.colors xstyledColorsStem ++
            ((if theme.useColorSchemeMediaQuery = some false then ""
              else concatMap (systemModeMediaBlock theme ms)
                (SYSTEM_MODES.filter fun m => (ms.lookup m).isSome)) ++
              concatMap (modeClassBlock theme ms)
                (getInitialColorModeName theme :: ms.map Prod.fst))) ++
          "\x7d")) := by
  constructor
  · intro h
    unfold createColorStyles
    rw [h]
  · intro ms hms
    unfold createColorStyles
    rw [hms]
    dsimp only
    by_cases hflag : theme.useColorSchemeMediaQuery = some false
    · rw [if_neg (by simp [hflag]), if_pos hflag, foldl_append_concatMap]
      simp [String.append_assoc]
    · rw [if_pos (by simp [hflag]), if_neg hflag,
        foldl_append_filter_concatMap, foldl_append_concatMap]
      simp [String.append_assoc]

/-- Witness for claim C6: a theme with one base color token and one
declared `dark` mode. -/
theorem claim_C6_createColorStyles_structure_witness :
    (Theme.mk none none none none [("primary", "white")]
        (some [("dark", [("primary", "black")])])).modes =
      some [("dark", [("primary", "black")])] ∧
    createColorStyles
        (Theme.mk none none none none [("primary", "white")]
          (some [("dark", [("primary", "black")])])) "body" =
      some ("body" ++ "\x7b" ++
        (toCustomPropertiesDeclarations
            (Theme.mk none none none none [("primary", "white")]
              (some [("dark", [("primary", "black")])])).colors
            xstyledColorsStem ++
          ((if (Theme.mk none none none none [("primary", "white")]
                (some [("dark", [("primary", "black")])])).useColorSchemeMediaQuery =
                some false then ""
            else concatMap
              (systemModeMediaBlock
                (Theme.mk none none none none [("primary", "white")]
                  (some [("dark", [("primary", "black")])]))
                [("dark", [("primary", "black")])])
              (SYSTEM_MODES.filter fun m =>
                (([("dark", [("primary", "black")])] :
                    List (String × List (String × String))).lookup
                    m).isSome)) ++
            concatMap
              (modeClassBlock
                (Theme.mk none none none none [("primary", "white")]
                  (some [("dark", [("primary", "black")])]))
                [("dark", [("primary", "black")])])
              (getInitialColorModeName
                  (Theme.mk none none none none [("primary", "white")]
                    (some [("dark", [("primary", "black")])])) ::
                ([("dark", [("primary", "black")])] :
                    List (String × List (String × String))).map
                  Prod.fst))) ++
        "\x7d") :=
  ⟨rfl,
    (claim_C6_createColorStyles_structure
        (Theme.mk none none none none [("primary", "white")]
          (some [("dark", [("primary", "black")])])) "body").2
      [("dark", [("primary", "black")])] rfl⟩

/-! ## Claim about the color-mode state machine -/

theorem applySystemModeChange_fixed_of_stored (env : ColorModeEnv)
    (sys : Option String) :
    applySystemModeChange env
        ⟨some "light", some "light", true⟩ sys =
      ⟨some "light", some "light", true⟩ := rfl

theorem foldl_applySystemModeChange_fixed (env : ColorModeEnv)
    (changes : List (Option String)) :
    changes.foldl (applySystemModeChange env)
        ⟨some "light", some "light", true⟩ =
      ⟨some "light", some "light", true⟩ := by
  induction changes with
  | nil => rfl
  | cons c t ih =>
      rw [List.foldl_cons, applySystemModeChange_fixed_of_stored, ih]

theorem mountColorModeState_dark (d : String) :
    mountColorModeState ⟨true, d⟩ (some "dark") none =
      ⟨none, some "dark", false⟩ := by
  unfold mountColorModeState mountState initialColorModeEffect settle
    renderPass storeModeEffect syncSystemModeEffect
  by_cases hd : d = "dark" <;> simp [hd, Option.orElse]

/-- Claim C1: starting with no persisted storage value and the system
preference matching a declared dark mode, the resolved mode becomes
`dark`; an explicit setter call with `light` persists `light` to storage,
and every subsequent sequence of system-preference changes leaves the
resolved mode at `light`, because the system-sync effect reads storage
first and skips when a persisted value exists.  The theme's default mode
name `d` is arbitrary. -/
theorem claim_C1_persisted_mode_sticky (d : String) :
    (mountColorModeState ⟨true, d⟩ (some "dark") none).mode = some "dark" ∧
    applySetColorMode ⟨true, d⟩ (some "dark")
        (mountColorModeState ⟨true, d⟩ (some "dark") none) (some "light") =
      ⟨some "light", some "light", true⟩ ∧
    ∀ changes : List (Option String),
      (changes.foldl (applySystemModeChange ⟨true, d⟩)
          (applySetColorMode ⟨true, d⟩ (some "dark")
            (mountColorModeState ⟨true, d⟩ (some "dark") none)
            (some "light"))).mode = some "light" := by
  have hmount := mountColorModeState_dark d
  have hset : applySetColorMode ⟨true, d⟩ (some "dark")
      (⟨none, some "dark", false⟩ : ColorModeMachine) (some "light") =
      ⟨some "light", some "light", true⟩ := rfl
  refine ⟨by rw [hmount], by rw [hmount, hset], ?_⟩
  intro changes
  rw [hmount, hset, foldl_applySystemModeChange_fixed]

end Xstyled
